import Mathlib

/-
  Verification of the layered configuration resolution of gonzo
  (cmd/gonzo/main.go).

  The repository source configures the cobra/pflag/viper stack:
  it declares the flag schema with built-in defaults, binds each flag
  to a viper key via BindPFlag, turns on prefixed automatic environment
  lookup with a hyphen-to-underscore key replacer, locates an optional
  YAML configuration file, reads it non-fatally, and unmarshals the
  merged settings into the typed Config record, aborting via log.Fatalf
  on decode failure.

  The viper/pflag/mapstructure machinery itself is not part of the
  repository; where its behaviour decides a property, the definitions
  below are modelled from the specification (each such definition says
  so in its doc comment), instantiated exactly with the keys, defaults
  and options that cmd/gonzo/main.go passes to it.
-/

set_option autoImplicit false

namespace Gonzo

/-- An untyped configuration value as it travels between sources and the
typed materializer: strings from environment and file scalars, typed
values (int, duration in nanoseconds, bool, string list) from flag
defaults and structured file entries. -/
inductive RawValue where
  | str (s : String)
  | int (n : Int)
  | dur (n : Int)
  | bool (b : Bool)
  | list (l : List String)
deriving DecidableEq, Repr

/-- One declared setting: the command-line flag name, the viper key it is
bound to (BindPFlag in init), and the flag's built-in default value. -/
structure SettingDecl where
  flagName : String
  viperKey : String
  defaultValue : RawValue
deriving DecidableEq, Repr

/-- The declared settings table, exactly the nineteen BindPFlag calls of
init in cmd/gonzo/main.go with the flag defaults from the flag schema.
Note the input-files entry: flag name "file", viper key "files". -/
def settings : List SettingDecl :=
  [ ⟨"memory-size", "memory-size", .int 10000⟩,
    ⟨"update-interval", "update-interval", .dur 1000000000⟩,
    ⟨"log-buffer", "log-buffer", .int 1000⟩,
    ⟨"test-mode", "test-mode", .bool false⟩,
    ⟨"ai-model", "ai-model", .str ""⟩,
    ⟨"file", "files", .list []⟩,
    ⟨"follow", "follow", .bool false⟩,
    ⟨"otlp-enabled", "otlp-enabled", .bool false⟩,
    ⟨"otlp-grpc-port", "otlp-grpc-port", .int 4317⟩,
    ⟨"otlp-http-port", "otlp-http-port", .int 4318⟩,
    ⟨"vmlogs-url", "vmlogs-url", .str ""⟩,
    ⟨"vmlogs-user", "vmlogs-user", .str ""⟩,
    ⟨"vmlogs-password", "vmlogs-password", .str ""⟩,
    ⟨"vmlogs-query", "vmlogs-query", .str "*"⟩,
    ⟨"skin", "skin", .str "default"⟩,
    ⟨"stop-words", "stop-words", .list []⟩,
    ⟨"format", "format", .str ""⟩,
    ⟨"disable-version-check", "disable-version-check", .bool false⟩,
    ⟨"reverse-scroll-wheel", "reverse-scroll-wheel", .bool false⟩ ]

/-- All mapstructure keys of the Config struct: the nineteen bound viper
keys plus "config" (field ConfigFile, whose flag is bound separately to
the cfgFile variable, not to viper). -/
def declaredKeys : List String :=
  "config" :: settings.map (fun d => d.viperKey)

/-- Uppercase a string character by character (ASCII, as strings.ToUpper
does on the declared keys). -/
def goToUpper (s : String) : String :=
  ⟨s.data.map Char.toUpper⟩

/-- The hyphen-to-underscore replacement installed by
SetEnvKeyReplacer(strings.NewReplacer("-", "_")). -/
def replaceDashes (s : String) : String :=
  ⟨s.data.map (fun c => if c = '-' then '_' else c)⟩

/-- Modelled from the spec: the environment variable consulted for a
setting key. main.go sets SetEnvPrefix("GONZO"), AutomaticEnv and the
hyphen replacer; the lookup name is the uppercased "GONZO_" ++ key with
the replacer applied (spec section 4.3). -/
def envName (key : String) : String :=
  replaceDashes (goToUpper ("GONZO" ++ "_" ++ key))

/-- The transformation exactly as the spec words it: upper-case the key,
replace its hyphens with underscores, prepend the fixed prefix token.
Used only to compare with envName. -/
def specEnvName (key : String) : String :=
  "GONZO_" ++ replaceDashes (goToUpper key)

/-- The file-location state that initConfig leaves in viper: either an
explicit config file (SetConfigFile) or a search directory with a config
name and type (AddConfigPath / SetConfigName / SetConfigType), or
nothing when the home directory could not be determined. -/
structure FileLocState where
  configFile : Option String
  searchPaths : List String
  configName : Option String
  configType : Option String
deriving DecidableEq, Repr

/-- The file locator of initConfig: a non-empty --config value is used
verbatim; otherwise the search directory is home ++ "/.config/gonzo"
with YAML type and config name "config"; a missing home directory is
only logged and leaves the state empty. -/
def locate (cfgFile : String) (home : Option String) : FileLocState :=
  if cfgFile ≠ "" then
    ⟨some cfgFile, [], none, none⟩
  else
    match home with
    | none => ⟨none, [], none, none⟩
    | some h => ⟨none, [h ++ "/.config/gonzo"], some "config", some "yaml"⟩

/-- A parsed configuration-file document: ordered key/value pairs. -/
abbrev Doc := List (String × RawValue)

/-- First-match lookup in a document. -/
def lookupDoc (key : String) : Doc → Option RawValue
  | [] => none
  | (k, v) :: rest => if k = key then some v else lookupDoc key rest

/-- Modelled from the spec: the per-key precedence resolution (spec
section 4.4) as viper performs it for a key bound by BindPFlag under
AutomaticEnv: an explicitly supplied flag value first, then the
environment variable named envName, then the file document entry, and
the flag's built-in default last. `flags name = some v` means the flag
was explicitly supplied on the command line. -/
def resolveKey (flags : String → Option RawValue) (env : String → Option String)
    (doc : Doc) (d : SettingDecl) : RawValue :=
  match flags d.flagName with
  | some v => v
  | none =>
    match env (envName d.viperKey) with
    | some e => .str e
    | none =>
      match lookupDoc d.viperKey doc with
      | some v => v
      | none => d.defaultValue

/-- Modelled from the spec: the merged settings document handed to the
typed materializer (viper.AllSettings fed to Unmarshal): every bound key
resolved by precedence, followed by the file entries whose keys are not
bound. -/
def mergedSettings (flags : String → Option RawValue) (env : String → Option String)
    (doc : Doc) : Doc :=
  settings.map (fun d => (d.viperKey, resolveKey flags env doc d))
    ++ doc.filter (fun p => ¬ settings.any (fun d => d.viperKey = p.1))

/-- Digit-string to number; none when empty or a non-digit appears. -/
def digitsToNat : List Char → Option Nat
  | [] => none
  | l => go l 0
where
  go : List Char → Nat → Option Nat
    | [], acc => some acc
    | c :: cs, acc =>
      if c.isDigit then go cs (acc * 10 + (c.toNat - 48)) else none

/-- Modelled from the spec: integer fields parse as base-10 integers
(optional leading minus sign); failure to parse is a fatal error. -/
def parseInt (s : String) : Option Int :=
  match s.data with
  | '-' :: rest => (digitsToNat rest).map (fun n => -(n : Int))
  | l => (digitsToNat l).map (fun n => (n : Int))

/-- Nanoseconds per duration unit token. -/
def unitNanos : String → Option Int
  | "ns" => some 1
  | "us" => some 1000
  | "ms" => some 1000000
  | "s" => some 1000000000
  | "m" => some 60000000000
  | "h" => some 3600000000000
  | _ => none

/-- Modelled from the spec: duration fields parse a human-readable
duration expression such as "1s" or "2m": a decimal count followed by a
unit, yielding nanoseconds. -/
def parseDuration (s : String) : Option Int :=
  match digitsToNat (s.data.takeWhile Char.isDigit) with
  | none => none
  | some n =>
    match unitNanos ⟨s.data.dropWhile Char.isDigit⟩ with
    | none => none
    | some u => some ((n : Int) * u)

/-- Modelled from the spec: boolean fields parse canonical true/false
tokens (the strconv.ParseBool token set). -/
def parseBool (s : String) : Option Bool :=
  if s = "1" ∨ s = "t" ∨ s = "T" ∨ s = "true" ∨ s = "TRUE" ∨ s = "True" then some true
  else if s = "0" ∨ s = "f" ∨ s = "F" ∨ s = "false" ∨ s = "FALSE" ∨ s = "False" then some false
  else none

/-- Split a character list at every comma: first segment plus the
remaining segments. -/
def splitComma : List Char → List Char × List (List Char)
  | [] => ([], [])
  | c :: cs =>
    let (p, ps) := splitComma cs
    if c = ',' then ([], p :: ps) else (c :: p, ps)

/-- All comma-separated segments of a string (strings.Split on ","). -/
def goSplit (s : String) : List String :=
  ((splitComma s.data).1 :: (splitComma s.data).2).map (fun cs => ⟨cs⟩)

/-- Modelled from the spec: string-list fields split a string value on
the comma delimiter into an ordered sequence, preserving order and
duplicates; the empty string yields the empty list (the decode hook's
special case). -/
def splitList (s : String) : List String :=
  if s = "" then [] else goSplit s

/-- Join strings with commas (inverse image of splitList on comma-free
elements; used to state order preservation). -/
def joinComma : List String → String
  | [] => ""
  | [s] => s
  | s :: rest => s ++ "," ++ joinComma rest

/-- Modelled from the spec: decode a resolved value into an integer
field; an absent key leaves the zero value, strings must parse base-10,
and the error message names the offending key and input. -/
def decodeInt (key : String) : Option RawValue → Except String Int
  | none => .ok 0
  | some (.int n) => .ok n
  | some (.bool b) => .ok (if b then 1 else 0)
  | some (.str s) =>
    match parseInt s with
    | some n => .ok n
    | none => .error ("cannot parse " ++ s ++ " as int for key " ++ key)
  | some _ => .error ("cannot decode value as int for key " ++ key)

/-- Modelled from the spec: decode a resolved value into a duration
field (nanoseconds); strings go through the duration expression parser,
integers pass as nanosecond counts. -/
def decodeDuration (key : String) : Option RawValue → Except String Int
  | none => .ok 0
  | some (.dur n) => .ok n
  | some (.int n) => .ok n
  | some (.str s) =>
    match parseDuration s with
    | some n => .ok n
    | none => .error ("cannot parse " ++ s ++ " as duration for key " ++ key)
  | some _ => .error ("cannot decode value as duration for key " ++ key)

/-- Modelled from the spec: decode a resolved value into a boolean
field. -/
def decodeBool (key : String) : Option RawValue → Except String Bool
  | none => .ok false
  | some (.bool b) => .ok b
  | some (.int n) => .ok (n ≠ 0)
  | some (.str s) =>
    match parseBool s with
    | some b => .ok b
    | none => .error ("cannot parse " ++ s ++ " as bool for key " ++ key)
  | some _ => .error ("cannot decode value as bool for key " ++ key)

/-- Modelled from the spec: decode a resolved value into a string field
(pass through unchanged). -/
def decodeStr (key : String) : Option RawValue → Except String String
  | none => .ok ""
  | some (.str s) => .ok s
  | some (.int n) => .ok (toString n)
  | some (.bool b) => .ok (if b then "1" else "0")
  | some _ => .error ("cannot decode value as string for key " ++ key)

/-- Modelled from the spec: decode a resolved value into a string-list
field; a string value is split on the comma delimiter. -/
def decodeStrList (key : String) : Option RawValue → Except String (List String)
  | none => .ok []
  | some (.list l) => .ok l
  | some (.str s) => .ok (splitList s)
  | some _ => .error ("cannot decode value as string list for key " ++ key)

/-- The typed configuration record of cmd/gonzo/main.go (struct Config),
durations as nanosecond counts. -/
structure Config where
  memorySize : Int
  updateInterval : Int
  logBuffer : Int
  testMode : Bool
  configFile : String
  aiModel : String
  files : List String
  follow : Bool
  otlpEnabled : Bool
  otlpGrpcPort : Int
  otlpHttpPort : Int
  vmlogsUrl : String
  vmlogsUser : String
  vmlogsPassword : String
  vmlogsQuery : String
  skin : String
  stopWords : List String
  format : String
  disableVersionCheck : Bool
  reverseScrollWheel : Bool
deriving DecidableEq, Repr

/-- Modelled from the spec: the typed materializer (viper.Unmarshal of
the merged settings into Config): each mapstructure key of the Config
struct is looked up in the merged document and converted to its declared
type; any conversion failure is a fatal decode error. -/
def materialize (m : Doc) : Except String Config := do
  let memorySize ← decodeInt "memory-size" (lookupDoc "memory-size" m)
  let updateInterval ← decodeDuration "update-interval" (lookupDoc "update-interval" m)
  let logBuffer ← decodeInt "log-buffer" (lookupDoc "log-buffer" m)
  let testMode ← decodeBool "test-mode" (lookupDoc "test-mode" m)
  let configFile ← decodeStr "config" (lookupDoc "config" m)
  let aiModel ← decodeStr "ai-model" (lookupDoc "ai-model" m)
  let files ← decodeStrList "files" (lookupDoc "files" m)
  let follow ← decodeBool "follow" (lookupDoc "follow" m)
  let otlpEnabled ← decodeBool "otlp-enabled" (lookupDoc "otlp-enabled" m)
  let otlpGrpcPort ← decodeInt "otlp-grpc-port" (lookupDoc "otlp-grpc-port" m)
  let otlpHttpPort ← decodeInt "otlp-http-port" (lookupDoc "otlp-http-port" m)
  let vmlogsUrl ← decodeStr "vmlogs-url" (lookupDoc "vmlogs-url" m)
  let vmlogsUser ← decodeStr "vmlogs-user" (lookupDoc "vmlogs-user" m)
  let vmlogsPassword ← decodeStr "vmlogs-password" (lookupDoc "vmlogs-password" m)
  let vmlogsQuery ← decodeStr "vmlogs-query" (lookupDoc "vmlogs-query" m)
  let skin ← decodeStr "skin" (lookupDoc "skin" m)
  let stopWords ← decodeStrList "stop-words" (lookupDoc "stop-words" m)
  let format ← decodeStr "format" (lookupDoc "format" m)
  let disableVersionCheck ← decodeBool "disable-version-check" (lookupDoc "disable-version-check" m)
  let reverseScrollWheel ← decodeBool "reverse-scroll-wheel" (lookupDoc "reverse-scroll-wheel" m)
  return ⟨memorySize, updateInterval, logBuffer, testMode, configFile, aiModel,
    files, follow, otlpEnabled, otlpGrpcPort, otlpHttpPort, vmlogsUrl, vmlogsUser,
    vmlogsPassword, vmlogsQuery, skin, stopWords, format, disableVersionCheck,
    reverseScrollWheel⟩

/-- The observable outcome of startup: a typed configuration handed to
the application, or process termination with an exit code and message
(log.Fatalf exits with status 1). -/
inductive Outcome where
  | ok (c : Config)
  | fatal (code : Nat) (msg : String)
deriving DecidableEq, Repr

/-- The result of the file read step: a read error is ignored and the
file contributes no values (initConfig checks err == nil only to log). -/
def readDoc : Except String Doc → Doc
  | .ok d => d
  | .error _ => []

/-- Materialize the merged settings, turning a decode error into the
fatal exit of log.Fatalf (exit status 1). -/
def finishConfig (m : Doc) : Outcome :=
  match materialize m with
  | .ok c => .ok c
  | .error e => .fatal 1 ("Unable to decode config: " ++ e)

/-- The whole initConfig pipeline of cmd/gonzo/main.go, parameterised by
the inputs it reads from the outside world: the --config flag value
(cfgFile), the home directory (none when os.UserHomeDir fails), the
filesystem read (what viper.ReadInConfig returns for a locator state),
the explicitly supplied command-line flags, and the process
environment. -/
def initConfig (cfgFile : String) (home : Option String)
    (fs : FileLocState → Except String Doc)
    (flags : String → Option RawValue) (env : String → Option String) : Outcome :=
  finishConfig (mergedSettings flags env (readDoc (fs (locate cfgFile home))))

/-! Helper lemmas shared between the claim theorems. -/

theorem settings_flagName_inj :
    ∀ d ∈ settings, ∀ d' ∈ settings, d.flagName = d'.flagName → d = d' := by decide

theorem settings_envName_inj :
    ∀ d ∈ settings, ∀ d' ∈ settings,
      envName d.viperKey = envName d'.viperKey → d = d' := by decide

theorem viperKey_mem_declaredKeys {d : SettingDecl} (hd : d ∈ settings) :
    d.viperKey ∈ declaredKeys :=
  List.mem_cons_of_mem _ (List.mem_map_of_mem _ hd)

theorem initConfig_read_error (cf : String) (home : Option String)
    (fs : FileLocState → Except String Doc)
    (flags : String → Option RawValue) (env : String → Option String) (e : String)
    (h : fs (locate cf home) = .error e) :
    initConfig cf home fs flags env = finishConfig (mergedSettings flags env []) := by
  simp [initConfig, h, readDoc]

theorem data_append (a b : String) : (a ++ b).data = a.data ++ b.data := rfl

theorem splitComma_comma_free (s : List Char) (h : ∀ c ∈ s, c ≠ ',') :
    splitComma s = (s, []) := by
  induction s with
  | nil => rfl
  | cons c cs ih =>
    have hc : c ≠ ',' := h c (List.mem_cons_self c cs)
    have ih' := ih (fun c' hc' => h c' (List.mem_cons_of_mem _ hc'))
    simp [splitComma, ih', hc]

theorem splitComma_append (s t : List Char) (h : ∀ c ∈ s, c ≠ ',') :
    splitComma (s ++ ',' :: t) = (s, (splitComma t).1 :: (splitComma t).2) := by
  induction s with
  | nil => simp [splitComma]
  | cons c cs ih =>
    have hc : c ≠ ',' := h c (List.mem_cons_self c cs)
    have ih' := ih (fun c' hc' => h c' (List.mem_cons_of_mem _ hc'))
    simp [splitComma, ih', hc]

theorem goSplit_join :
    ∀ l : List String, l ≠ [] → (∀ s ∈ l, ∀ c ∈ s.data, c ≠ ',') →
      goSplit (joinComma l) = l := by
  intro l
  induction l with
  | nil => intro hl _; exact absurd rfl hl
  | cons x rest ih =>
    intro _ hcf
    cases rest with
    | nil =>
      have h1 : splitComma x.data = (x.data, []) :=
        splitComma_comma_free x.data (hcf x (List.mem_cons_self x []))
      show goSplit x = [x]
      unfold goSplit
      rw [h1]
      rfl
    | cons y rest' =>
      have hx : ∀ c ∈ x.data, c ≠ ',' := hcf x (List.mem_cons_self x _)
      have hdata : (joinComma (x :: y :: rest')).data
          = x.data ++ ',' :: (joinComma (y :: rest')).data := by
        show (x ++ "," ++ joinComma (y :: rest')).data = _
        simp [data_append]
      have h2 : splitComma (joinComma (x :: y :: rest')).data
          = (x.data, (splitComma (joinComma (y :: rest')).data).1
              :: (splitComma (joinComma (y :: rest')).data).2) := by
        rw [hdata]
        exact splitComma_append _ _ hx
      have ih2 : ((splitComma (joinComma (y :: rest')).data).1
          :: (splitComma (joinComma (y :: rest')).data).2).map
            (fun cs => (⟨cs⟩ : String)) = y :: rest' :=
        ih (by simp) (fun s hs => hcf s (List.mem_cons_of_mem _ hs))
      show ((splitComma (joinComma (x :: y :: rest')).data).1
          :: (splitComma (joinComma (x :: y :: rest')).data).2).map
            (fun cs => (⟨cs⟩ : String)) = x :: y :: rest'
      rw [h2, List.map_cons, ih2]

theorem resolveKey_cons_ne (flags : String → Option RawValue)
    (env : String → Option String) (doc : Doc) (k : String) (v : RawValue)
    (d : SettingDecl) (h : k ≠ d.viperKey) :
    resolveKey flags env ((k, v) :: doc) d = resolveKey flags env doc d := by
  have hl : lookupDoc d.viperKey ((k, v) :: doc) = lookupDoc d.viperKey doc := by
    simp [lookupDoc, h]
  simp [resolveKey, hl]

theorem lookupDoc_append (t : String) (A B : Doc) :
    lookupDoc t (A ++ B)
      = (match lookupDoc t A with | some v => some v | none => lookupDoc t B) := by
  induction A with
  | nil => simp [lookupDoc]
  | cons p A ih =>
    obtain ⟨a, b⟩ := p
    by_cases h : a = t <;> simp [lookupDoc, h, ih]

theorem lookupDoc_filter_cons (t k : String) (v : RawValue) (doc : Doc)
    (p : String × RawValue → Bool) (h : k ≠ t) :
    lookupDoc t (((k, v) :: doc).filter p) = lookupDoc t (doc.filter p) := by
  simp only [List.filter_cons]
  split
  · simp [lookupDoc, h]
  · rfl

theorem materialize_congr {m m' : Doc}
    (h : ∀ t ∈ declaredKeys, lookupDoc t m = lookupDoc t m') :
    materialize m = materialize m' := by
  simp only [materialize,
    h "memory-size" (by decide), h "update-interval" (by decide),
    h "log-buffer" (by decide), h "test-mode" (by decide), h "config" (by decide),
    h "ai-model" (by decide), h "files" (by decide), h "follow" (by decide),
    h "otlp-enabled" (by decide), h "otlp-grpc-port" (by decide),
    h "otlp-http-port" (by decide), h "vmlogs-url" (by decide),
    h "vmlogs-user" (by decide), h "vmlogs-password" (by decide),
    h "vmlogs-query" (by decide), h "skin" (by decide), h "stop-words" (by decide),
    h "format" (by decide), h "disable-version-check" (by decide),
    h "reverse-scroll-wheel" (by decide)]

/-! The claims. -/

/-- C1: for every declared setting key, the resolved value is the first
present value in the order flag (only if explicitly supplied), then
environment, then configuration file, then built-in default; an
unsupplied flag contributes no value, so its default never overrides a
present environment or file value. -/
theorem c1_precedence_order (d : SettingDecl) (_hd : d ∈ settings)
    (flags : String → Option RawValue) (env : String → Option String) (doc : Doc) :
    (∀ v, flags d.flagName = some v → resolveKey flags env doc d = v) ∧
    (flags d.flagName = none →
      ∀ e, env (envName d.viperKey) = some e → resolveKey flags env doc d = .str e) ∧
    (flags d.flagName = none → env (envName d.viperKey) = none →
      ∀ v, lookupDoc d.viperKey doc = some v → resolveKey flags env doc d = v) ∧
    (flags d.flagName = none → env (envName d.viperKey) = none →
      lookupDoc d.viperKey doc = none → resolveKey flags env doc d = d.defaultValue) := by
  refine ⟨?_, ?_, ?_, ?_⟩ <;> intros <;> simp_all [resolveKey]

/-- C1 witness: with no flag supplied, the environment value 8000 for
memory-size wins over the built-in default 10000. -/
theorem c1_precedence_order_witness :
    resolveKey (fun _ => none)
      (fun n => if n = envName "memory-size" then some "8000" else none) []
      ⟨"memory-size", "memory-size", RawValue.int 10000⟩ = .str "8000" :=
  (c1_precedence_order ⟨"memory-size", "memory-size", RawValue.int 10000⟩ (by decide)
      (fun _ => none)
      (fun n => if n = envName "memory-size" then some "8000" else none) []).2.1
    rfl "8000" (by simp)

/-- C2: for every declared setting key, the environment variable
consulted is obtained by upper-casing the key, replacing every hyphen
with an underscore, and prepending the fixed prefix GONZO_ followed by
no other change. -/
theorem c2_env_transform : ∀ k ∈ declaredKeys, envName k = specEnvName k := by decide

/-- C2 witness: the key vmlogs-user is looked up as GONZO_VMLOGS_USER. -/
theorem c2_env_transform_witness :
    envName "vmlogs-user" = specEnvName "vmlogs-user" ∧
    envName "vmlogs-user" = "GONZO_VMLOGS_USER" :=
  ⟨c2_env_transform "vmlogs-user" (by decide), by decide⟩

/-- C3: a non-empty --config path is used exactly as given, without
checking existence; an empty one makes the locator search the home
directory plus the fixed subpath /.config/gonzo with YAML config name
config; failure to determine the home directory is only logged, and
resolution proceeds from environment, flags and defaults alone. -/
theorem c3_file_locator (p h : String) (fs : FileLocState → Except String Doc)
    (flags : String → Option RawValue) (env : String → Option String) (e : String) :
    (p ≠ "" → ∀ hm : Option String, locate p hm = ⟨some p, [], none, none⟩) ∧
    (locate "" (some h) = ⟨none, [h ++ "/.config/gonzo"], some "config", some "yaml"⟩) ∧
    (fs (locate "" none) = .error e →
      initConfig "" none fs flags env = finishConfig (mergedSettings flags env [])) := by
  refine ⟨?_, ?_, ?_⟩
  · intro hp hm
    simp [locate, hp]
  · simp [locate]
  · intro hread
    exact initConfig_read_error "" none fs flags env e hread

/-- C3 witness: a concrete explicit path is taken verbatim, and with no
home directory and a failing read the pipeline equals the no-file
pipeline. -/
theorem c3_file_locator_witness :
    locate "/tmp/custom.yml" none = ⟨some "/tmp/custom.yml", [], none, none⟩ ∧
    initConfig "" none (fun _ => .error "no home") (fun _ => none) (fun _ => none)
      = finishConfig (mergedSettings (fun _ => none) (fun _ => none) []) :=
  ⟨(c3_file_locator "/tmp/custom.yml" "h" (fun _ => .error "no home") (fun _ => none)
      (fun _ => none) "no home").1 (by decide) none,
   (c3_file_locator "/tmp/custom.yml" "h" (fun _ => .error "no home") (fun _ => none)
      (fun _ => none) "no home").2.2 rfl⟩

/-- C4: a missing configuration file and one that fails to parse are
both non-fatal: the file reader contributes the empty mapping, the
process does not abort at the read step, and resolution continues with
environment, flag and default sources for every key. -/
theorem c4_unreadable_file_nonfatal (cf : String) (home : Option String)
    (fs : FileLocState → Except String Doc)
    (flags : String → Option RawValue) (env : String → Option String) (e : String)
    (hread : fs (locate cf home) = .error e) :
    readDoc (fs (locate cf home)) = [] ∧
    initConfig cf home fs flags env = finishConfig (mergedSettings flags env []) := by
  constructor
  · simp [hread, readDoc]
  · exact initConfig_read_error cf home fs flags env e hread

/-- C4 witness: a file that fails to parse at an explicit path leaves
the pipeline equal to the no-file pipeline. -/
theorem c4_unreadable_file_nonfatal_witness :
    initConfig "/tmp/bad.yml" (some "/home/u") (fun _ => .error "yaml parse failure")
        (fun _ => none) (fun _ => none)
      = finishConfig (mergedSettings (fun _ => none) (fun _ => none) []) :=
  (c4_unreadable_file_nonfatal "/tmp/bad.yml" (some "/home/u")
      (fun _ => .error "yaml parse failure") (fun _ => none) (fun _ => none)
      "yaml parse failure" rfl).2

/-- C5: if the merged document cannot be decoded into the typed record,
startup aborts: the outcome is a fatal exit with status 1 and a
descriptive message, and never the application body with a
partially-typed configuration. -/
theorem c5_decode_failure_fatal (cf : String) (home : Option String)
    (fs : FileLocState → Except String Doc)
    (flags : String → Option RawValue) (env : String → Option String) (e : String)
    (h : materialize (mergedSettings flags env (readDoc (fs (locate cf home)))) = .error e) :
    initConfig cf home fs flags env = .fatal 1 ("Unable to decode config: " ++ e) ∧
    ∀ c, initConfig cf home fs flags env ≠ .ok c := by
  constructor
  · simp [initConfig, finishConfig, h]
  · intro c hc
    simp [initConfig, finishConfig, h] at hc

/-- C6 counterexample: the claim fails on the input-files setting: its
command-line flag is named file while its configuration-file and
environment key is files, so not every flag name equals its setting
key. -/
theorem c6_counterexample :
    (⟨"file", "files", RawValue.list []⟩ : SettingDecl) ∈ settings ∧
    ("file" : String) ≠ "files" ∧
    ¬ (∀ d ∈ settings, d.flagName = d.viperKey) := by decide

/-- C6 amended: every declared setting uses its setting key identically
as configuration-file key and (after the GONZO_ transformation) as
environment name, and the command-line flag name equals the setting key
for every setting except the input-files one, whose flag is named file
while its key is files. -/
theorem c6_amended_key_consistency (d : SettingDecl) (hd : d ∈ settings) :
    d.flagName = d.viperKey ∨ (d.flagName = "file" ∧ d.viperKey = "files") := by
  have h : ∀ d' ∈ settings,
      d'.flagName = d'.viperKey ∨ (d'.flagName = "file" ∧ d'.viperKey = "files") := by decide
  exact h d hd

/-- C6 amended witness: the skin setting uses one identifier across all
sources. -/
theorem c6_amended_key_consistency_witness :
    (⟨"skin", "skin", RawValue.str "default"⟩ : SettingDecl).flagName =
      (⟨"skin", "skin", RawValue.str "default"⟩ : SettingDecl).viperKey ∨
    ((⟨"skin", "skin", RawValue.str "default"⟩ : SettingDecl).flagName = "file" ∧
      (⟨"skin", "skin", RawValue.str "default"⟩ : SettingDecl).viperKey = "files") :=
  c6_amended_key_consistency ⟨"skin", "skin", RawValue.str "default"⟩ (by decide)

/-- C7 counterexample: GONZO_CONFIG does not select the configuration
file the way --config does: with a filesystem that serves a skin value
at /tmp/gonzo.yml, passing --config=/tmp/gonzo.yml and setting
GONZO_CONFIG=/tmp/gonzo.yml produce different resolved
configurations. -/
theorem c7_counterexample :
    initConfig "/tmp/gonzo.yml" none
        (fun st => if st.configFile = some "/tmp/gonzo.yml"
          then Except.ok [("skin", RawValue.str "dracula")] else .error "file not found")
        (fun _ => none) (fun _ => none)
      ≠
    initConfig "" none
        (fun st => if st.configFile = some "/tmp/gonzo.yml"
          then Except.ok [("skin", RawValue.str "dracula")] else .error "file not found")
        (fun _ => none)
        (fun n => if n = envName "config" then some "/tmp/gonzo.yml" else none) := by decide

/-- C7 amended: for every viper-bound flag key (all flag keys except
config), supplying only the transformed environment variable yields the
same resolved configuration as supplying only the corresponding flag
with the same value; the config key is not bound, and the configuration
file is selected only by the --config flag. -/
theorem c7_amended_env_equiv (d : SettingDecl) (hd : d ∈ settings) (v : String)
    (cf : String) (home : Option String) (fs : FileLocState → Except String Doc) :
    initConfig cf home fs
        (fun n => if n = d.flagName then some (.str v) else none) (fun _ => none)
      = initConfig cf home fs (fun _ => none)
        (fun n => if n = envName d.viperKey then some v else none) := by
  unfold initConfig
  congr 1
  unfold mergedSettings
  congr 1
  apply List.map_congr_left
  intro d' hd'
  by_cases hdd : d' = d
  · subst hdd
    simp [resolveKey]
  · have h1 : d'.flagName ≠ d.flagName := fun h => hdd (settings_flagName_inj d' hd' d hd h)
    have h2 : envName d'.viperKey ≠ envName d.viperKey :=
      fun h => hdd (settings_envName_inj d' hd' d hd h)
    simp [resolveKey, h1, h2]

/-- C7 amended witness: setting only GONZO_SKIN=dracula resolves the
same configuration as supplying only --skin=dracula. -/
theorem c7_amended_env_equiv_witness :
    initConfig "" none (fun _ => .error "nf")
        (fun n => if n = "skin" then some (RawValue.str "dracula") else none) (fun _ => none)
      = initConfig "" none (fun _ => .error "nf") (fun _ => none)
        (fun n => if n = envName "skin" then some "dracula" else none) :=
  c7_amended_env_equiv ⟨"skin", "skin", RawValue.str "default"⟩ (by decide) "dracula" "" none
    (fun _ => .error "nf")

/-- C8: the key-to-environment-name transformation is injective on the
declared key set: two distinct declared setting keys always map to
distinct environment variable names. -/
theorem c8_env_transform_injective :
    ∀ k ∈ declaredKeys, ∀ k' ∈ declaredKeys, k ≠ k' → envName k ≠ envName k' := by decide

/-- C8 witness: the transformed names of memory-size and log-buffer are
distinct. -/
theorem c8_env_transform_injective_witness :
    envName "memory-size" ≠ envName "log-buffer" :=
  c8_env_transform_injective "memory-size" (by decide) "log-buffer" (by decide) (by decide)

/-- C5 witness: a non-integer environment value for memory-size makes
startup terminate fatally with status 1 and a message naming the key. -/
theorem c5_decode_failure_fatal_witness :
    initConfig "" none (fun _ => .error "nf") (fun _ => none)
        (fun n => if n = envName "memory-size" then some "notanumber" else none)
      = .fatal 1 ("Unable to decode config: " ++
          "cannot parse notanumber as int for key memory-size") :=
  (c5_decode_failure_fatal "" none (fun _ => .error "nf") (fun _ => none)
      (fun n => if n = envName "memory-size" then some "notanumber" else none)
      "cannot parse notanumber as int for key memory-size" rfl).1

/-- C9: a supplied string-list value is split on the comma delimiter
into an ordered sequence that preserves the original element order and
keeps duplicates; in particular foo,bar,baz resolves to exactly the
list foo, bar, baz. -/
theorem c9_string_list_split (l : List String) (hne : joinComma l ≠ "")
    (hcf : ∀ s ∈ l, ∀ c ∈ s.data, c ≠ ',') :
    splitList (joinComma l) = l ∧
    splitList "foo,bar,baz" = ["foo", "bar", "baz"] ∧
    decodeStrList "stop-words" (some (.str "foo,bar,baz"))
      = .ok ["foo", "bar", "baz"] := by
  refine ⟨?_, by decide, rfl⟩
  have hl : l ≠ [] := by
    rintro rfl
    exact hne rfl
  rw [splitList, if_neg hne]
  exact goSplit_join l hl hcf

/-- C9 witness: foo,bar,foo splits to the ordered list foo, bar, foo,
preserving order and keeping the duplicate. -/
theorem c9_string_list_split_witness :
    splitList (joinComma ["foo", "bar", "foo"]) = ["foo", "bar", "foo"] ∧
    splitList "foo,bar,baz" = ["foo", "bar", "baz"] ∧
    decodeStrList "stop-words" (some (.str "foo,bar,baz"))
      = .ok ["foo", "bar", "baz"] :=
  c9_string_list_split ["foo", "bar", "foo"] (by decide) (by decide)

/-- C10: configuration-file keys outside the declared setting-key set
are silently ignored during materialization: adding an undeclared key to
any file document changes neither the success of resolution nor any
field of the resulting typed configuration record. -/
theorem c10_unknown_keys_ignored (flags : String → Option RawValue)
    (env : String → Option String) (doc : Doc) (k : String) (v : RawValue)
    (hk : k ∉ declaredKeys) :
    materialize (mergedSettings flags env ((k, v) :: doc))
      = materialize (mergedSettings flags env doc) := by
  have hkd : ∀ d ∈ settings, k ≠ d.viperKey := by
    intro d hd he
    exact hk (he ▸ viperKey_mem_declaredKeys hd)
  have hmap : settings.map (fun d => (d.viperKey, resolveKey flags env ((k, v) :: doc) d))
      = settings.map (fun d => (d.viperKey, resolveKey flags env doc d)) := by
    apply List.map_congr_left
    intro d hd
    rw [resolveKey_cons_ne _ _ _ _ _ _ (hkd d hd)]
  apply materialize_congr
  intro t ht
  have hne : k ≠ t := fun he => hk (he ▸ ht)
  have hf : lookupDoc t (((k, v) :: doc).filter
        (fun p => ¬ settings.any (fun d => d.viperKey = p.1)))
      = lookupDoc t (doc.filter (fun p => ¬ settings.any (fun d => d.viperKey = p.1))) :=
    lookupDoc_filter_cons t k v doc _ hne
  simp only [mergedSettings, hmap, lookupDoc_append, hf]

/-- C10 witness: adding the undeclared key zzz-unknown to a file
document leaves the materialized configuration unchanged. -/
theorem c10_unknown_keys_ignored_witness :
    materialize (mergedSettings (fun _ => none) (fun _ => none)
        [("zzz-unknown", RawValue.str "1"), ("skin", RawValue.str "dracula")])
      = materialize (mergedSettings (fun _ => none) (fun _ => none)
        [("skin", RawValue.str "dracula")]) :=
  c10_unknown_keys_ignored (fun _ => none) (fun _ => none)
    [("skin", RawValue.str "dracula")] "zzz-unknown" (RawValue.str "1") (by decide)

end Gonzo
